import Mathlib

/-!
Verification of the percolator-matchers pricing and compliance engine.

The definitions below are a shallow embedding of the repository's pure
pricing functions, taken from:
  * `src/scripts/test-compliance.ts` (computeVolSpread, computeMacroSpread,
    computeEdgeFactor, computeEventSpread, computePrivacySpread,
    computeJpySpread, testComplianceScenarios);
  * `src/tests/event-matcher.test.ts` (computeEdgeFactor,
    computeEventExecPrice);
  * `src/tests/macro-matcher.test.ts` (computeMacroExecPrice,
    computeMarkPrice);
  * `src/unnamed/part_010` — the JPY matcher test file
    (computeJpyExecPrice, isJurisdictionBlocked).

Numbers are embedded as `Nat` (or `Int` where the source value is signed).
`Math.floor(a / b)` on non-negative operands is `Nat` division; JavaScript
`Math.max(x - y, 0)` on `Nat` operands is truncated `Nat` subtraction.
-/

namespace PercolatorMatchers

/-- Shared execution-price expression `Math.floor(price * (10_000 + totalSpread) / 10_000)`
that each matcher's exec-price function inlines as its last line. -/
def execPriceFormula (price totalSpread : ℕ) : ℕ :=
  price * (10000 + totalSpread) / 10000

/-! ### Volatility matcher (`src/scripts/test-compliance.ts`, lines 69-86) -/

/-- The `volRegimeMultiplier` record: 0 VeryLow, 1 Low, 2 Normal, 3 High, 4 Extreme. -/
def volRegimeMultiplierTable : List (ℕ × ℕ) :=
  [(0, 50), (1, 75), (2, 100), (3, 150), (4, 250)]

/-- `volRegimeMultiplier[regime] || 100`: a missing key — and, by JavaScript
falsiness, a stored 0 — both fall back to 100. -/
def volRegimeMultiplier (regime : ℕ) : ℕ :=
  match volRegimeMultiplierTable.lookup regime with
  | some m => if m = 0 then 100 else m
  | none => 100

/-- `adjustedVov = Math.floor((vovSpread * multiplier) / 100)` in `computeVolSpread`. -/
def volAdjustedWidening (vovSpread regime : ℕ) : ℕ :=
  vovSpread * volRegimeMultiplier regime / 100

/-- `computeVolSpread` from `src/scripts/test-compliance.ts`. -/
def computeVolSpread (baseSpread vovSpread maxSpread regime : ℕ) : ℕ :=
  min (baseSpread + volAdjustedWidening vovSpread regime) maxSpread

/-! ### Macro matcher (`src/scripts/test-compliance.ts` lines 89-106,
`src/tests/macro-matcher.test.ts`) -/

/-- The `macroRegimeMultiplier` record: 0 Expansion, 1 Stagnation, 2 Crisis, 3 Recovery. -/
def macroRegimeMultiplierTable : List (ℕ × ℕ) :=
  [(0, 60), (1, 100), (2, 200), (3, 125)]

/-- `macroRegimeMultiplier[regime] ?? 100`: a missing key falls back to 100 (Stagnation). -/
def macroRegimeMultiplier (regime : ℕ) : ℕ :=
  (macroRegimeMultiplierTable.lookup regime).getD 100

/-- `adjustedRegime = Math.floor((regimeSpread * multiplier) / 100)`. -/
def macroAdjustedWidening (regimeSpread regime : ℕ) : ℕ :=
  regimeSpread * macroRegimeMultiplier regime / 100

/-- `computeMacroSpread` from `src/scripts/test-compliance.ts`; the same spread
block is inlined in `computeMacroExecPrice` of `src/tests/macro-matcher.test.ts`. -/
def computeMacroSpread (baseSpread regimeSpread maxSpread regime signalAdj : ℕ) : ℕ :=
  min (baseSpread + macroAdjustedWidening regimeSpread regime + signalAdj) maxSpread

/-- `computeMacroExecPrice` from `src/tests/macro-matcher.test.ts`. -/
def computeMacroExecPrice (markE6 baseSpread regimeSpread maxSpread regime signalAdj : ℕ) : ℕ :=
  execPriceFormula markE6 (computeMacroSpread baseSpread regimeSpread maxSpread regime signalAdj)

/-- `computeMarkPrice` from `src/tests/macro-matcher.test.ts`:
`shifted = realRateBps + 500; if (shifted <= 0) return 0; return shifted * 10_000`.
The real-rate input is signed, so it is embedded over `Int`. -/
def computeMarkPrice (realRateBps : ℤ) : ℤ :=
  let shifted := realRateBps + 500
  if shifted ≤ 0 then 0 else shifted * 10000

/-! ### Event (probability) matcher (`src/tests/event-matcher.test.ts`,
`src/scripts/test-compliance.ts` lines 109-129) -/

def MAX_PROBABILITY : ℕ := 1000000

/-- `computeEdgeFactor` from `src/tests/event-matcher.test.ts`.  The source
computes `denom = p * (1e6 - p) * 4 / 1e12` and `Math.floor(1_000_000 / denom)`;
in exact arithmetic `Math.floor(1_000_000 / (num / 1e12))` is `1e18 / num`
(`Nat` division), and `denom <= 0` holds exactly when `num = 0` (for
`p > 1e6` the source's `oneMinusP` is negative and this `Nat` embedding's
truncated subtraction is 0: both take the `denom <= 0` branch). -/
def computeEdgeFactor (probability : ℕ) : ℕ :=
  let p := probability
  let oneMinusP := MAX_PROBABILITY - p
  let num := p * oneMinusP * 4
  if num = 0 then 10000000
  else min (1000000000000000000 / num) 10000000

/-- `adjustedEdge = Math.floor((edgeSpread * edgeFactor) / 1_000_000)`. -/
def eventAdjustedWidening (edgeSpread probability : ℕ) : ℕ :=
  edgeSpread * computeEdgeFactor probability / 1000000

/-- `computeEventSpread` from `src/scripts/test-compliance.ts`; the same spread
block is inlined in `computeEventExecPrice` of `src/tests/event-matcher.test.ts`. -/
def computeEventSpread (baseSpread edgeSpread maxSpread probability signalAdj : ℕ) : ℕ :=
  min (baseSpread + eventAdjustedWidening edgeSpread probability + signalAdj) maxSpread

/-- `computeEventExecPrice` from `src/tests/event-matcher.test.ts`. -/
def computeEventExecPrice (probability baseSpread edgeSpread maxSpread signalAdj : ℕ) : ℕ :=
  execPriceFormula probability
    (computeEventSpread baseSpread edgeSpread maxSpread probability signalAdj)

/-! ### Privacy matcher (`src/scripts/test-compliance.ts`, lines 132-138) -/

/-- `computePrivacySpread`: `Math.min(baseSpread + solverFee, maxSpread)`. -/
def computePrivacySpread (baseSpread solverFee maxSpread : ℕ) : ℕ :=
  min (baseSpread + solverFee) maxSpread

/-! ### JPY (KYC/jurisdiction) matcher (`src/unnamed/part_010`,
`src/scripts/test-compliance.ts` lines 141-150) -/

/-- `computeJpySpread` from `src/scripts/test-compliance.ts`:
`discount = isInstitutional ? kycDiscount : 0`;
`effective = Math.max(baseSpread - discount, 0)` (truncated `Nat` subtraction);
`Math.min(effective, maxSpread)`. -/
def computeJpySpread (baseSpread kycDiscount maxSpread : ℕ) (isInstitutional : Bool) : ℕ :=
  let discount := if isInstitutional then kycDiscount else 0
  let effective := baseSpread - discount
  min effective maxSpread

/-- `computeJpyExecPrice` from `src/unnamed/part_010`: the same discount,
saturating subtraction and cap as `computeJpySpread`, then the shared
exec-price line. -/
def computeJpyExecPrice (oraclePrice baseSpread kycDiscount maxSpread : ℕ)
    (isInstitutional : Bool) : ℕ :=
  execPriceFormula oraclePrice (computeJpySpread baseSpread kycDiscount maxSpread isInstitutional)

/-- `isJurisdictionBlocked` from `src/unnamed/part_010`:
`if (jurisdiction >= 8) return false; return ((blockedMask >> jurisdiction) & 1) === 1`. -/
def isJurisdictionBlocked (jurisdiction blockedMask : ℕ) : Bool :=
  if jurisdiction ≥ 8 then false
  else (blockedMask >>> jurisdiction) &&& 1 == 1

/-! ### Event matcher lifecycle

Modelled from the spec: the on-chain event matcher's instruction handlers
(Match tag 0x00, ProbabilitySync tag 0x03, Resolve tag 0x04 of
`programs/event-matcher/src/probability.rs`) are not under `src/`; only
their TypeScript callers are (`src/app/event-keeper/src/settlement.ts`
sends the Resolve instruction, `src/app/event-keeper/src/probability-sync.ts`
reads `is_resolved` at byte 160).  The state machine below follows the
spec's §4.4 and the repository's `percolator-matchers-analysis.md`:
Match rejects a resolved market (error `MarketResolved`), then rejects a
zero probability, else prices via the edge-spread formula; Sync rejects a
resolved market, then rejects a probability above 1,000,000, else stores
the new probability and signal adjustment; Resolve rejects a resolved
market (one-time) and an outcome other than 0 or 1, else snaps the
probability to 0 or 1,000,000 and sets the resolved flag.  Authorization
and oracle-staleness checks are omitted: they reject calls a fortiori and
do not affect the resolution property.  A failed call leaves the context
unchanged. -/

structure EventContext where
  baseSpread : ℕ
  edgeSpread : ℕ
  maxSpread : ℕ
  probability : ℕ
  signalAdj : ℕ
  isResolved : Bool
  outcome : ℕ
deriving DecidableEq

inductive EventError where
  | marketResolved
  | probabilityNotSet
  | invalidProbability
  | invalidOutcome
deriving DecidableEq

inductive EventOp where
  | matchOp
  | syncOp (newProbability signalAdj : ℕ)
  | resolveOp (outcome : ℕ)

/-- One instruction of the event matcher: on success, the new context and
(for Match) the execution price written to the return slot. -/
def eventStep (ctx : EventContext) : EventOp → Except EventError (EventContext × Option ℕ)
  | .matchOp =>
    if ctx.isResolved then .error .marketResolved
    else if ctx.probability = 0 then .error .probabilityNotSet
    else .ok (ctx, some (computeEventExecPrice ctx.probability ctx.baseSpread
        ctx.edgeSpread ctx.maxSpread ctx.signalAdj))
  | .syncOp newProbability signalAdj =>
    if ctx.isResolved then .error .marketResolved
    else if MAX_PROBABILITY < newProbability then .error .invalidProbability
    else .ok ({ ctx with probability := newProbability, signalAdj := signalAdj }, none)
  | .resolveOp outcome =>
    if ctx.isResolved then .error .marketResolved
    else if 1 < outcome then .error .invalidOutcome
    else .ok ({ ctx with
        probability := if outcome = 1 then MAX_PROBABILITY else 0,
        isResolved := true,
        outcome := outcome }, none)

/-- Run a sequence of instructions; a failed instruction leaves the context
byte-for-byte unchanged (spec §7: "no partial writes"). -/
def eventRun (ctx : EventContext) : List EventOp → EventContext
  | [] => ctx
  | op :: ops =>
    match eventStep ctx op with
    | .ok (ctx2, _) => eventRun ctx2 ops
    | .error _ => eventRun ctx ops

/-- Every instruction sent to a resolved context fails with `MarketResolved`. -/
theorem eventStep_resolved_fails (ctx : EventContext) (op : EventOp)
    (h : ctx.isResolved = true) :
    eventStep ctx op = Except.error EventError.marketResolved := by
  cases op <;> simp [eventStep, h]

/-- A resolved context is a fixed point of every instruction sequence. -/
theorem eventRun_resolved_fixed (ctx : EventContext) (h : ctx.isResolved = true) :
    ∀ ops : List EventOp, eventRun ctx ops = ctx
  | [] => rfl
  | op :: ops => by
    rw [eventRun, eventStep_resolved_fails ctx op h]
    exact eventRun_resolved_fixed ctx h ops

/-! ### Claim theorems -/

/-- C1: for every variant's spread computation — volatility `computeVolSpread`,
macro `computeMacroSpread`, event `computeEventSpread`, privacy
`computePrivacySpread`, KYC `computeJpySpread` — and all non-negative integer
inputs (base spread, widening parameter, regime byte, signal adjustment,
probability, KYC discount, configured maximum), the returned total spread is
at most the configured `maxSpread`. -/
theorem spread_never_exceeds_max :
    ∀ baseSpread widening maxSpread regime signalAdj probability kycDiscount : ℕ,
    ∀ isInstitutional : Bool,
      computeVolSpread baseSpread widening maxSpread regime ≤ maxSpread ∧
      computeMacroSpread baseSpread widening maxSpread regime signalAdj ≤ maxSpread ∧
      computeEventSpread baseSpread widening maxSpread probability signalAdj ≤ maxSpread ∧
      computePrivacySpread baseSpread widening maxSpread ≤ maxSpread ∧
      computeJpySpread baseSpread kycDiscount maxSpread isInstitutional ≤ maxSpread :=
  fun _ _ _ _ _ _ _ _ =>
    ⟨min_le_right _ _, min_le_right _ _, min_le_right _ _, min_le_right _ _,
      min_le_right _ _⟩

/-- C2: `computeEdgeFactor` returns exactly 1,000,000 (1.0x) at probability
500,000; at both boundaries (0 and 1,000,000) it returns exactly the cap
10,000,000 (10x); and for every probability in [0, 1,000,000] the result
never exceeds 10,000,000. -/
theorem edgeFactor_center_boundaries_cap :
    computeEdgeFactor 500000 = 1000000 ∧
    computeEdgeFactor 0 = 10000000 ∧
    computeEdgeFactor 1000000 = 10000000 ∧
    ∀ p : ℕ, p ≤ 1000000 → computeEdgeFactor p ≤ 10000000 := by
  refine ⟨by decide, by decide, by decide, ?_⟩
  intro p _
  unfold computeEdgeFactor
  dsimp only
  split
  · exact le_refl _
  · exact min_le_right _ _

theorem edgeFactor_center_boundaries_cap_witness :
    computeEdgeFactor 250000 ≤ 10000000 :=
  edgeFactor_center_boundaries_cap.2.2.2 250000 (by decide)

/-- C3: in the probability (event) variant, for every outcome value, once a
context has been resolved (Resolve snaps the probability to exactly 0 or
1,000,000 and sets the resolved flag), every subsequent Match call and every
subsequent Sync call fails — even after any further instruction sequence —
and no sequence of instructions clears the resolved flag. -/
theorem resolution_is_terminal (ctx ctx2 : EventContext) (outcome : ℕ) (ret : Option ℕ)
    (h : eventStep ctx (EventOp.resolveOp outcome) = Except.ok (ctx2, ret)) :
    ctx2.isResolved = true ∧
    ctx2.probability = (if outcome = 1 then 1000000 else 0) ∧
    ∀ ops : List EventOp,
      (eventRun ctx2 ops).isResolved = true ∧
      eventStep (eventRun ctx2 ops) EventOp.matchOp
        = Except.error EventError.marketResolved ∧
      ∀ p adj : ℕ, eventStep (eventRun ctx2 ops) (EventOp.syncOp p adj)
        = Except.error EventError.marketResolved := by
  have hctx : ctx2.isResolved = true ∧
      ctx2.probability = (if outcome = 1 then 1000000 else 0) := by
    simp only [eventStep] at h
    split_ifs at h with h1 h2 h3
    · simp only [Except.ok.injEq, Prod.mk.injEq] at h
      obtain ⟨hc, -⟩ := h
      subst hc
      refine ⟨rfl, ?_⟩
      simp [MAX_PROBABILITY, h3]
    · simp only [Except.ok.injEq, Prod.mk.injEq] at h
      obtain ⟨hc, -⟩ := h
      subst hc
      refine ⟨rfl, ?_⟩
      simp [h3]
  refine ⟨hctx.1, hctx.2, ?_⟩
  intro ops
  rw [eventRun_resolved_fixed ctx2 hctx.1 ops]
  exact ⟨hctx.1, eventStep_resolved_fails ctx2 EventOp.matchOp hctx.1,
    fun p adj => eventStep_resolved_fails ctx2 (EventOp.syncOp p adj) hctx.1⟩

theorem resolution_is_terminal_witness :
    eventStep
      { baseSpread := 20, edgeSpread := 50, maxSpread := 500, probability := 1000000,
        signalAdj := 0, isResolved := true, outcome := 1 } EventOp.matchOp
      = Except.error EventError.marketResolved :=
  ((resolution_is_terminal
      { baseSpread := 20, edgeSpread := 50, maxSpread := 500, probability := 500000,
        signalAdj := 0, isResolved := false, outcome := 0 }
      { baseSpread := 20, edgeSpread := 50, maxSpread := 500, probability := 1000000,
        signalAdj := 0, isResolved := true, outcome := 1 }
      1 none rfl).2.2 []).2.1

/-- C4: in the volatility variant, for every regime byte, the adjusted
widening equals `floor(vovSpread * m / 100)` with multiplier m = 50, 75, 100,
150, 250 for regimes 0-4, and m = 100 (the Normal baseline) for every regime
byte outside 0-4. -/
theorem vol_regime_multiplier_spec :
    ∀ vovSpread regime : ℕ,
      volAdjustedWidening vovSpread regime =
        vovSpread * (if regime = 0 then 50 else if regime = 1 then 75
          else if regime = 2 then 100 else if regime = 3 then 150
          else if regime = 4 then 250 else 100) / 100 := by
  intro vovSpread regime
  match regime with
  | 0 => rfl
  | 1 => rfl
  | 2 => rfl
  | 3 => rfl
  | 4 => rfl
  | (n + 5) => rfl

/-- C5: in the macro variant, for every signed real-rate input, the mark
price equals `max(0, (realRateBps + 500) * 10,000)`: exactly 0 whenever
`realRateBps ≤ -500`, and `(realRateBps + 500) * 10,000` otherwise; in
particular 5,000,000 at 0 bps, 7,000,000 at +200 bps, 4,000,000 at -100 bps. -/
theorem markPrice_offset_floor :
    (∀ r : ℤ, computeMarkPrice r = max 0 ((r + 500) * 10000)) ∧
    (∀ r : ℤ, r ≤ -500 → computeMarkPrice r = 0) ∧
    (∀ r : ℤ, -500 < r → computeMarkPrice r = (r + 500) * 10000) ∧
    computeMarkPrice 0 = 5000000 ∧
    computeMarkPrice 200 = 7000000 ∧
    computeMarkPrice (-100) = 4000000 := by
  have key : ∀ r : ℤ, computeMarkPrice r = max 0 ((r + 500) * 10000) := by
    intro r
    unfold computeMarkPrice
    dsimp only
    split <;> omega
  refine ⟨key, ?_, ?_, ?_, ?_, ?_⟩
  · intro r hr; rw [key r]; omega
  · intro r hr; rw [key r]; omega
  · rw [key 0]; rfl
  · rw [key 200]; rfl
  · rw [key (-100)]; rfl

theorem markPrice_offset_floor_witness :
    computeMarkPrice (-600) = 0 :=
  markPrice_offset_floor.2.1 (-600) (by decide)

/-- C6: in the KYC (JPY) variant, the discount equals `kycDiscountBps`
exactly for the Institutional tier and 0 otherwise; the effective spread is
the saturating subtraction `max(baseSpread - discount, 0)` capped at
`maxSpread` (stated over ℤ so the saturation is the spec's `max(·, 0)`);
with baseSpread = 20 and kycDiscount = 5 the spread is 15 for Institutional
and 20 for Basic. -/
theorem jpy_discount_spec :
    (∀ base d m : ℕ, computeJpySpread base d m true = min (base - d) m) ∧
    (∀ base d m : ℕ, computeJpySpread base d m false = min base m) ∧
    (∀ base d m : ℕ, (computeJpySpread base d m true : ℤ)
        = min (max ((base : ℤ) - (d : ℤ)) 0) (m : ℤ)) ∧
    computeJpySpread 20 5 100 true = 15 ∧
    computeJpySpread 20 5 100 false = 20 := by
  refine ⟨fun base d m => rfl, fun base d m => rfl, ?_, by decide, by decide⟩
  intro base d m
  simp only [computeJpySpread, if_true]
  omega

/-- C7: in the event variant, probability 10,000 (1%) with baseSpread 20,
edgeSpread 50, maxSpread 500, signal adjustment 0 gives edge factor exactly
10,000,000 (the cap), adjusted widening 500, total spread 500 (capped at
maxSpread), and execution price exactly 10,500. -/
theorem event_one_percent_scenario :
    computeEdgeFactor 10000 = 10000000 ∧
    eventAdjustedWidening 50 10000 = 500 ∧
    computeEventSpread 20 50 500 10000 0 = 500 ∧
    computeEventExecPrice 10000 20 50 500 0 = 10500 := by
  refine ⟨by decide, by decide, by decide, by decide⟩

/-- C8: in the macro variant, mark price 5,000,000 with baseSpread 20,
regimeSpread 40, maxSpread 200, regime Crisis (multiplier 200) and signal
adjustment 0 gives adjusted widening 80, total spread 100, and execution
price exactly 5,050,000. -/
theorem macro_crisis_scenario :
    macroRegimeMultiplier 2 = 200 ∧
    macroAdjustedWidening 40 2 = 80 ∧
    computeMacroSpread 20 40 200 2 0 = 100 ∧
    computeMacroExecPrice 5000000 20 40 200 2 0 = 5050000 := by
  refine ⟨by decide, by decide, by decide, by decide⟩

/-- C9: for every non-zero price, the execution-price formula with total
spread 0 returns the price unchanged — `floor(price * (10,000 + 0) / 10,000)
= price` — both as the shared formula and through `computeJpyExecPrice` and
`computeMacroExecPrice` with parameters forcing a zero total spread. -/
theorem zero_spread_identity :
    ∀ price : ℕ, price ≠ 0 →
      execPriceFormula price 0 = price ∧
      computeJpyExecPrice price 0 0 0 false = price ∧
      computeMacroExecPrice price 0 0 0 1 0 = price := by
  intro price _
  have h : execPriceFormula price 0 = price := by
    unfold execPriceFormula
    omega
  exact ⟨h, h, h⟩

theorem zero_spread_identity_witness :
    execPriceFormula 150000000 0 = 150000000 :=
  (zero_spread_identity 150000000 (by decide)).1

/-- C10: the jurisdiction compliance check blocks only codes 0-7: for every
jurisdiction code of at least 8 and every blocked-jurisdiction bitmask —
including the all-blocked mask 0xFF — `isJurisdictionBlocked` returns
false, so an out-of-range jurisdiction code always passes the
blocked-jurisdiction step. -/
theorem jurisdiction_out_of_range_passes :
    ∀ jurisdiction blockedMask : ℕ, 8 ≤ jurisdiction →
      isJurisdictionBlocked jurisdiction blockedMask = false := by
  intro jurisdiction blockedMask h
  simp [isJurisdictionBlocked, h]

theorem jurisdiction_out_of_range_passes_witness :
    isJurisdictionBlocked 8 255 = false :=
  jurisdiction_out_of_range_passes 8 255 (by decide)

end PercolatorMatchers
